import Mathlib

/-!
Verification development for the `RESTStore` session-aware request client:
the refresh coordinator (deduplication via a stored in-flight promise),
the persisted cross-tab clock in localStorage, the session-watch timer,
and the fetch/upload response normalization.

Modelling conventions:
* Machine time `Date.now()` is an explicit `now : Nat` argument (epoch ms).
* `localStorage` is the `lastRefreshed : Option Nat` field of the state
  (`none` = key absent; `Number(null) = 0` is reflected in `getLastRefresh`).
* A JavaScript promise is identified by a numeric id; `refreshPromise` holds
  the id of the in-flight refresh promise, mirroring the source field.
* `JSON.parse` of a network body is abstracted by carrying, next to the raw
  response text, the parsed value as an `Option Json` (`none` = the text is
  not valid JSON, so `JSON.parse`, `response.json()` would throw/reject).
* An async step that reaches neither `resolve` nor `reject` (an exception
  thrown inside a callback, or an `await` of a rejected promise inside a
  `new Promise(async ...)` executor) leaves the promise forever pending;
  such outcomes are modelled by explicit `neverSettles` / `parseThrow`
  constructors.
-/

namespace StateMgmt

/-- JSON values, as produced by `JSON.parse` and consumed by
`JSON.stringify`. Objects keep their fields as an association list. -/
inductive Json where
  | null
  | bool (b : Bool)
  | num (n : Int)
  | str (s : String)
  | arr (elems : List Json)
  | obj (fields : List (String × Json))

mutual

/-- Model of `JSON.stringify` on parsed JSON values. -/
def Json.stringify : Json → String
  | .null => "null"
  | .bool true => "true"
  | .bool false => "false"
  | .num n => toString n
  | .str s => "\"" ++ s ++ "\""
  | .arr es => "[" ++ Json.stringifyList es ++ "]"
  | .obj fs => "\x7b" ++ Json.stringifyFields fs ++ "\x7d"

def Json.stringifyList : List Json → String
  | [] => ""
  | [e] => Json.stringify e
  | e :: rest => Json.stringify e ++ "," ++ Json.stringifyList rest

def Json.stringifyFields : List (String × Json) → String
  | [] => ""
  | [kv] => "\"" ++ kv.1 ++ "\":" ++ Json.stringify kv.2
  | kv :: rest =>
      "\"" ++ kv.1 ++ "\":" ++ Json.stringify kv.2 ++ "," ++
        Json.stringifyFields rest

end

/-- JavaScript property access `body.k` on a parsed JSON value:
`some v` when `body` is an object with field `k`, otherwise `none`
(standing for `undefined`). -/
def Json.getField : Json → String → Option Json
  | .obj fs, k => fs.lookup k
  | _, _ => none

/-- JavaScript truthiness of a JSON value: `null`, `false`, `0` and the
empty string are falsy; every object and array is truthy. -/
def Json.truthy : Json → Bool
  | .null => false
  | .bool b => b
  | .num n => n != 0
  | .str s => s != ""
  | .arr _ => true
  | .obj _ => true

/-- Truthiness of an optional property (`undefined` is falsy). -/
def jsTruthyOpt (o : Option Json) : Bool :=
  (o.map Json.truthy).getD false

/-- `REFRESH_TIMEOUT = 900000 - 3` (ms): the absolute session ceiling,
3 ms less than the server value to prevent timing issues. -/
def REFRESH_TIMEOUT : Nat := 900000 - 3

/-- `ACCESS_TIMEOUT = 60000 - 3` (ms): the access-token freshness window,
3 ms less than the server value to prevent timing issues. -/
def ACCESS_TIMEOUT : Nat := 60000 - 3

/-- `responseErrorMsg(response, body)`: prefer a truthy
`body.error_description`, then a truthy `body.error`, else the fallback
`` `${response.status} - ${JSON.stringify(body)}` ``. The JS function
returns the chosen field value itself, so the result is a `Json`. -/
def responseErrorMsg (status : Nat) (body : Json) : Json :=
  if body.truthy && jsTruthyOpt (body.getField "error_description") then
    (body.getField "error_description").getD .null
  else if body.truthy && jsTruthyOpt (body.getField "error") then
    (body.getField "error").getD .null
  else
    .str (toString status ++ " - " ++ Json.stringify body)

/-- The observable fields of a `RESTStore` instance together with the
in-flight refresh handle and the persisted localStorage clock. -/
structure RESTState where
  expired : Bool
  status : Nat
  error : Json
  progress : Nat
  uploadError : String
  refreshPromise : Option Nat
  lastRefreshed : Option Nat

/-- An HTTP response as seen by the handlers: its status, its raw body
text, and the result of parsing that text as JSON (`none` when the text
is not valid JSON). -/
structure HttpResponse where
  status : Nat
  text : String
  json : Option Json

namespace RESTStore

/-- `getLastRefresh()`: `Number(localStorage.getItem('auth.lastRefreshed'))`;
an absent key gives `Number(null) = 0`. -/
def getLastRefresh (s : RESTState) : Nat :=
  s.lastRefreshed.getD 0

/-- `updateLastRefresh()`: `localStorage.setItem('auth.lastRefreshed', Date.now())`. -/
def updateLastRefresh (s : RESTState) (now : Nat) : RESTState :=
  { s with lastRefreshed := some now }

/-- `clearLastRefresh()`: `localStorage.removeItem('auth.lastRefreshed')`. -/
def clearLastRefresh (s : RESTState) : RESTState :=
  { s with lastRefreshed := none }

/-- One tick of the session-watch interval installed by the constructor:
`if (this.getLastRefresh() + REFRESH_TIMEOUT < Date.now()) this.expired = true`. -/
def sessionWatchTick (s : RESTState) (now : Nat) : RESTState :=
  if getLastRefresh s + REFRESH_TIMEOUT < now then { s with expired := true } else s

end RESTStore

/-- What the synchronous part of `refresh()` (up to and including starting
the network call) returns to its caller. -/
inductive RefreshSyncResult where
  | existing (pid : Nat)
  | fresh
  | started (pid : Nat)

/-- Number of refresh-endpoint network calls a single `refresh()`
invocation issues: one exactly when it started a new attempt. -/
def RefreshSyncResult.networkCalls : RefreshSyncResult → Nat
  | .started _ => 1
  | _ => 0

/-- The outcome of the refresh network call as provided by the platform:
either the transport itself fails (`window.fetch` rejects) or an HTTP
response arrives. -/
inductive NetOutcome where
  | transportError
  | response (resp : HttpResponse)

/-- How the promise created by `refresh()` settles: resolves with no
value, rejects with an error carrying status/body/message, or never
settles at all (the async executor threw before reaching
`resolve`/`reject`, so `.finally` never runs either). -/
inductive RefreshSettled where
  | resolvedUnit
  | rejectedErr (status : Nat) (body : Json) (message : Json)
  | neverSettles

namespace RESTStore

/-- The synchronous phase of `refresh()` (source lines 199-214 and 231):
return the in-flight promise if any; otherwise return `undefined` when the
token is still fresh; otherwise write the clock optimistically, create the
promise `pid` whose executor immediately issues the network call, store it
in `refreshPromise`, and return it. -/
def refresh (s : RESTState) (now : Nat) (pid : Nat) :
    RefreshSyncResult × RESTState :=
  match s.refreshPromise with
  | some p => (.existing p, s)
  | none =>
    if getLastRefresh s + ACCESS_TIMEOUT > now then (.fresh, s)
    else
      (.started pid,
        { updateLastRefresh s now with refreshPromise := some pid })

/-- The continuation of `refresh()`'s executor once the network call
settles (source lines 211-229), including the `.finally` that clears the
in-flight handle — which runs only if the executor's promise settles:

* transport rejection: the `await` throws inside the `async` executor, so
  neither `resolve` nor `reject` is ever called and the handle stays set;
* status 200: clear `expired`, resolve, clear the handle;
* other status: set `expired`, then `await response.json()`: if the body
  parses, derive the message, reject with status/body/message and clear
  the handle; if parsing rejects, the executor dies and the promise never
  settles with the handle still set. -/
def refreshSettle (s : RESTState) (net : NetOutcome) :
    RESTState × RefreshSettled :=
  match net with
  | .transportError => (s, .neverSettles)
  | .response resp =>
    if resp.status == 200 then
      ({ s with expired := false, refreshPromise := none }, .resolvedUnit)
    else
      let s1 := { s with expired := true }
      match resp.json with
      | some body =>
        let msg := responseErrorMsg resp.status body
        ({ s1 with error := msg, refreshPromise := none },
          .rejectedErr resp.status body msg)
      | none => (s1, .neverSettles)

/-- A sequence of `refresh()` invocations, threading the state; each call
comes with its own `Date.now()` reading and the id of the promise it
would create if it started a new attempt. -/
def refreshSeq (s : RESTState) (calls : List (Nat × Nat)) :
    List RefreshSyncResult × RESTState :=
  match calls with
  | [] => ([], s)
  | c :: rest =>
    let r := refresh s c.1 c.2
    let rs := refreshSeq r.2 rest
    (r.1 :: rs.1, rs.2)

end RESTStore

/-- A JavaScript options object, modelled as an association list of
properties (keys are unique in practice; `lookup` reads a property). -/
abbrev JsOptions : Type := List (String × Json)

/-- Property read `options.k` with JS truthiness (`undefined` is falsy). -/
def optTruthy (options : JsOptions) (k : String) : Bool :=
  jsTruthyOpt (List.lookup k options)

/-- The object spread `{...base, ...more}`: keys of `more` win. -/
def spreadMerge (base more : JsOptions) : JsOptions :=
  base.filter (fun kv => (List.lookup kv.1 more).isNone) ++ more

/-- The default headers of `buildOptions`. -/
def standardHeaders : JsOptions :=
  [("Content-Type", Json.str "application/json"),
   ("Cache-Control", Json.str "no-cache")]

/-- `buildOptions(options)`: merge caller options over the standard ones
(JSON content type, no-cache, `credentials: 'include'`,
`mode: 'same-origin'`); when the caller supplies truthy `headers`, they
are first merged over the standard headers key by key. -/
def buildOptions (options : JsOptions) : JsOptions :=
  let standard : JsOptions :=
    [("headers", Json.obj standardHeaders),
     ("credentials", Json.str "include"),
     ("mode", Json.str "same-origin")]
  let options1 :=
    match List.lookup "headers" options with
    | some (Json.obj h) =>
        spreadMerge (options.filter (fun kv => kv.1 != "headers"))
          [("headers", Json.obj (spreadMerge standardHeaders h))]
    | _ => options
  spreadMerge standard options1

namespace RESTStore

/-- The rest pattern of `const { query, skip401 = false, ...requestOptions }
= options` in `fetch`: every property except `query` and `skip401`. -/
def fetchRequestOptions (options : JsOptions) : JsOptions :=
  options.filter (fun kv => !(kv.1 == "query" || kv.1 == "skip401"))

/-- The rest pattern of `const { method = 'POST', query, headers = {},
...data } = options` in `upload`: every property except `method`, `query`
and `headers`. -/
def uploadData (options : JsOptions) : JsOptions :=
  options.filter
    (fun kv => !(kv.1 == "method" || kv.1 == "query" || kv.1 == "headers"))

/-- The multipart form built by `upload`: each remaining option entry is
appended `JSON.stringify`ed, then the file is appended last under the key
`"file"` (the file itself stands for its raw binary content). -/
def uploadFormFields (options : JsOptions) (file : String) :
    List (String × String) :=
  (uploadData options).map (fun kv => (kv.1, Json.stringify kv.2)) ++
    [("file", file)]

end RESTStore

/-- How the promise returned by `fetch` settles. -/
inductive FetchOutcome where
  | resolvedJson (body : Json)
  | parseFailure
  | gatewayTimeout (message : String)
  | httpError (status : Nat) (body : Json) (message : Json)
  | refreshFailed (status : Nat) (body : Json) (message : Json)
  | neverSettles

/-- What a single `fetch` call did: whether it awaited `this.refresh()`,
whether it issued its own network call, and how its promise settles. -/
structure FetchTrace where
  refreshAwaited : Bool
  networkCalled : Bool
  outcome : FetchOutcome

/-- `response.ok` of the Fetch API: status in the range 200-299. -/
def respOk (status : Nat) : Bool :=
  200 ≤ status && status ≤ 299

namespace RESTStore

/-- The response-handling continuation of `fetch` (source lines 89-114):
force the observable status to 200 on a 401 when `skip401` is truthy,
otherwise record the real status; on `response.ok` clear the error and
resolve with `response.json()` (adopting its parse failure as a
rejection); on 504 reject with the raw text; on any other status parse
the body, record the derived message and reject with
status/body/message — if that parse rejects, the handler's promise chain
dies unobserved and the outer promise never settles. -/
def handleFetchResponse (s : RESTState) (skip401 : Bool)
    (resp : HttpResponse) : RESTState × FetchOutcome :=
  let s1 :=
    if skip401 && resp.status == 401 then { s with status := 200 }
    else { s with status := resp.status }
  if respOk resp.status then
    ({ s1 with error := Json.str "" },
      match resp.json with
      | some j => .resolvedJson j
      | none => .parseFailure)
  else if resp.status == 504 then
    (s1, .gatewayTimeout resp.text)
  else
    match resp.json with
    | some body =>
      let msg := responseErrorMsg resp.status body
      ({ s1 with error := msg }, .httpError resp.status body msg)
    | none => (s1, .neverSettles)

/-- One `fetch(url, options, recordActivity)` call (source lines 70-116).
The freshness gate runs first: when `!options.skipRefresh &&
recordActivity`, the call awaits `this.refresh()`, whose settlement is the
`refreshResult` argument — a rejection is caught and re-rejected without
issuing the network call, and a never-settling refresh promise blocks the
call forever. Otherwise (and on refresh success) the network call is
issued and handled by `handleFetchResponse`; `resp` is its response.
State changes made inside `refresh()` itself are modelled by
`refresh`/`refreshSettle` and are not re-applied here. -/
def fetch (s : RESTState) (options : JsOptions) (recordActivity : Bool)
    (refreshResult : RefreshSettled) (resp : HttpResponse) :
    RESTState × FetchTrace :=
  if !(optTruthy options "skipRefresh") && recordActivity then
    match refreshResult with
    | .neverSettles => (s, ⟨true, false, .neverSettles⟩)
    | .rejectedErr st body msg => (s, ⟨true, false, .refreshFailed st body msg⟩)
    | .resolvedUnit =>
      let r := handleFetchResponse s (optTruthy options "skip401") resp
      (r.1, ⟨true, true, r.2⟩)
  else
    let r := handleFetchResponse s (optTruthy options "skip401") resp
    (r.1, ⟨false, true, r.2⟩)

end RESTStore

/-- How the promise returned by `upload` settles once the request
completes: resolve with the parsed body on 200, reject with the parsed
body otherwise — or, when `JSON.parse(xhr.responseText)` throws inside
`onreadystatechange`, neither happens and the promise never settles. -/
inductive UploadOutcome where
  | resolvedJson (body : Json)
  | rejectedBody (body : Json)
  | parseThrow

namespace RESTStore

/-- The `onreadystatechange` handler of `upload` at `readyState === 4`
(source lines 159-170): record the status; on 200 clear the upload error
and resolve with `JSON.parse(xhr.responseText)`; on any other status set
the upload error to the raw response text and reject with
`JSON.parse(xhr.responseText)`. In both branches `JSON.parse` runs after
the upload-error write, and an unparsable body makes it throw, so no
settlement happens. -/
def uploadOnLoad (s : RESTState) (resp : HttpResponse) :
    RESTState × UploadOutcome :=
  let s1 := { s with status := resp.status }
  if resp.status == 200 then
    let s2 := { s1 with uploadError := "" }
    match resp.json with
    | some j => (s2, .resolvedJson j)
    | none => (s2, .parseThrow)
  else
    let s2 := { s1 with uploadError := resp.text }
    match resp.json with
    | some j => (s2, .rejectedBody j)
    | none => (s2, .parseThrow)

end RESTStore

/-- A client state with the observable defaults of a fresh `RESTStore`
instance (`expired = false`, `status = 200`, empty error fields, no
in-flight refresh) and a given persisted-clock content. -/
def initState (last : Option Nat) : RESTState :=
  { expired := false, status := 200, error := Json.str "", progress := 0,
    uploadError := "", refreshPromise := none, lastRefreshed := last }

/-- A 401 response with the empty JSON object as body. -/
def resp401ce : HttpResponse :=
  ⟨401, "\x7b\x7d", some (Json.obj [])⟩

/-- A 200 response with the empty JSON object as body. -/
def resp200ce : HttpResponse :=
  ⟨200, "\x7b\x7d", some (Json.obj [])⟩

/-- A body whose `error_description` field is present but empty (falsy in
JS) next to a non-empty `error` field. -/
def bodyEDempty : Json :=
  Json.obj [("error_description", Json.str ""), ("error", Json.str "Y")]

/-- Membership in `spreadMerge` from the right operand. -/
theorem mem_spreadMerge_right {base more : JsOptions} {kv : String × Json}
    (h : kv ∈ more) : kv ∈ spreadMerge base more :=
  List.mem_append_right _ h

/-- Membership in `spreadMerge` from the left operand when the key is not
overridden by the right operand. -/
theorem mem_spreadMerge_left {base more : JsOptions} {kv : String × Json}
    (h : kv ∈ base) (hk : (List.lookup kv.1 more).isNone = true) :
    kv ∈ spreadMerge base more :=
  List.mem_append_left _ (List.mem_filter.mpr ⟨h, hk⟩)

/-- C1: while a refresh is outstanding (in-flight handle `p` set), every
call in any sequence of further `refresh()` invocations returns that same
pending promise `p`, the state (and hence the in-flight handle and the
persisted clock) is unchanged, and zero refresh network calls are issued;
all callers therefore hold the one promise `p` and observe its single
eventual settlement. -/
theorem c1_refresh_dedup (p : Nat) (s : RESTState)
    (calls : List (Nat × Nat)) (h : s.refreshPromise = some p) :
    (RESTStore.refreshSeq s calls).1 =
      calls.map (fun _ => RefreshSyncResult.existing p) ∧
    (RESTStore.refreshSeq s calls).2 = s ∧
    ((RESTStore.refreshSeq s calls).1.map RefreshSyncResult.networkCalls).sum
      = 0 := by
  induction calls with
  | nil => simp [RESTStore.refreshSeq]
  | cons c rest ih =>
    have hr : RESTStore.refresh s c.1 c.2 = (.existing p, s) := by
      simp [RESTStore.refresh, h]
    simp [RESTStore.refreshSeq, hr, ih.1, ih.2.1, ih.2.2,
      RefreshSyncResult.networkCalls]

/-- Witness for C1 at a concrete state with promise 7 in flight and two
further calls. -/
theorem c1_refresh_dedup_witness :
    (RESTStore.refreshSeq
        { initState (some 0) with refreshPromise := some 7 }
        [(1, 2), (3, 4)]).1 =
      [RefreshSyncResult.existing 7, RefreshSyncResult.existing 7] :=
  (c1_refresh_dedup 7 { initState (some 0) with refreshPromise := some 7 }
    [(1, 2), (3, 4)] rfl).1

/-- C2: with no refresh in flight, a `refresh()` at time `now` is a
no-op (zero network calls, state and persisted clock unchanged) when
`now - lastRefreshedAt < ACCESS_TIMEOUT`, and otherwise issues exactly
one network call having already written `lastRefreshedAt = now` to the
persisted clock (the write is part of the synchronous phase, i.e. it
precedes any settlement of the network response). -/
theorem c2_refresh_freshness (s : RESTState) (now pid : Nat)
    (h : s.refreshPromise = none) :
    (now - RESTStore.getLastRefresh s < ACCESS_TIMEOUT →
      (RESTStore.refresh s now pid).1.networkCalls = 0 ∧
      (RESTStore.refresh s now pid).2 = s) ∧
    (ACCESS_TIMEOUT ≤ now - RESTStore.getLastRefresh s →
      (RESTStore.refresh s now pid).1.networkCalls = 1 ∧
      (RESTStore.refresh s now pid).2.lastRefreshed = some now ∧
      (RESTStore.refresh s now pid).2.refreshPromise = some pid) := by
  constructor
  · intro hf
    have hc : RESTStore.getLastRefresh s + ACCESS_TIMEOUT > now := by
      unfold ACCESS_TIMEOUT at *
      omega
    simp [RESTStore.refresh, h, hc, RefreshSyncResult.networkCalls]
  · intro hs
    have hc : ¬ RESTStore.getLastRefresh s + ACCESS_TIMEOUT > now := by
      unfold ACCESS_TIMEOUT at *
      omega
    simp [RESTStore.refresh, h, hc, RESTStore.updateLastRefresh,
      RefreshSyncResult.networkCalls]

/-- Witness for C2: with the clock at 0, a call at 59996 ms (just inside
the window) leaves the state unchanged, and a call at 59997 ms issues a
call and writes the clock. -/
theorem c2_refresh_freshness_witness :
    (RESTStore.refresh (initState (some 0)) 59996 1).2 = initState (some 0) ∧
    (RESTStore.refresh (initState (some 0)) 59997 1).1.networkCalls = 1 ∧
    (RESTStore.refresh (initState (some 0)) 59997 1).2.lastRefreshed =
      some 59997 := by
  refine ⟨((c2_refresh_freshness (initState (some 0)) 59996 1 rfl).1 ?_).2,
    ((c2_refresh_freshness (initState (some 0)) 59997 1 rfl).2 ?_).1,
    ((c2_refresh_freshness (initState (some 0)) 59997 1 rfl).2 ?_).2.1⟩ <;>
    decide

/-- C4 (amended): a session-watch tick leaves the expiry flag true exactly
when it was already true or `now` strictly exceeds
`lastRefreshedAt + REFRESH_TIMEOUT`; in particular the flag is never newly
set while `now - lastRefreshedAt ≤ REFRESH_TIMEOUT`, and a crossing is
observed at the first tick strictly after it. -/
theorem c4_session_watch (s : RESTState) (now : Nat) :
    (RESTStore.sessionWatchTick s now).expired = true ↔
      (s.expired = true ∨ RESTStore.getLastRefresh s + REFRESH_TIMEOUT < now) := by
  unfold RESTStore.sessionWatchTick
  by_cases hc : RESTStore.getLastRefresh s + REFRESH_TIMEOUT < now <;>
    simp [hc]

/-- Counterexample to C4 as stated: at a tick where
`now - lastRefreshedAt` equals `REFRESH_TIMEOUT` exactly (so
`now - lastRefreshedAt ≥ REFRESH_TIMEOUT` holds), the code does not set
the expiry flag, because its comparison is strict. -/
theorem c4_session_watch_counterexample :
    REFRESH_TIMEOUT ≤ 899997 - RESTStore.getLastRefresh (initState (some 0)) ∧
    (RESTStore.sessionWatchTick (initState (some 0)) 899997).expired = false := by
  exact ⟨by decide, rfl⟩

/-- C3 (amended): a `fetch` with truthy `skip401` whose response has
status 401 and a parseable body forces the observable status to 200, but
the call is still rejected with the HTTP error carrying status 401, the
parsed body and the derived message — `response.ok` is untouched by the
`skip401` handling, so the call is not treated as a success. -/
theorem c3_skip401 (s : RESTState) (options : JsOptions) (ra : Bool)
    (resp : HttpResponse) (body : Json) (h401 : resp.status = 401)
    (hjson : resp.json = some body)
    (hskip : optTruthy options "skip401" = true) :
    (RESTStore.fetch s options ra RefreshSettled.resolvedUnit resp).1.status
      = 200 ∧
    (RESTStore.fetch s options ra RefreshSettled.resolvedUnit resp).2.outcome
      = FetchOutcome.httpError 401 body (responseErrorMsg 401 body) := by
  have hh : RESTStore.handleFetchResponse s (optTruthy options "skip401") resp
      = ({ s with status := 200, error := responseErrorMsg 401 body },
          FetchOutcome.httpError 401 body (responseErrorMsg 401 body)) := by
    unfold RESTStore.handleFetchResponse
    simp [hskip, h401, hjson, respOk]
  unfold RESTStore.fetch
  by_cases hg : (!(optTruthy options "skipRefresh") && ra) = true <;>
    simp [hg, hh]

/-- Witness for C3's amended statement at a concrete 401 response with
body `{}`. -/
theorem c3_skip401_witness :
    (RESTStore.fetch (initState (some 0)) [("skip401", Json.bool true)] true
        RefreshSettled.resolvedUnit resp401ce).1.status = 200 ∧
    (RESTStore.fetch (initState (some 0)) [("skip401", Json.bool true)] true
        RefreshSettled.resolvedUnit resp401ce).2.outcome
      = FetchOutcome.httpError 401 (Json.obj [])
          (responseErrorMsg 401 (Json.obj [])) :=
  c3_skip401 (initState (some 0)) [("skip401", Json.bool true)] true
    resp401ce (Json.obj []) rfl rfl rfl

/-- Counterexample to C3 as stated: with `skip401` set and a 401 response
(body `{}`), the observable status does read 200, but the promise is
rejected with the HTTP error (message `"401 - {}"`) — it does not resolve. -/
theorem c3_skip401_counterexample :
    (RESTStore.fetch (initState (some 0)) [("skip401", Json.bool true)] true
        RefreshSettled.resolvedUnit resp401ce).1.status = 200 ∧
    (RESTStore.fetch (initState (some 0)) [("skip401", Json.bool true)] true
        RefreshSettled.resolvedUnit resp401ce).2.outcome
      = FetchOutcome.httpError 401 (Json.obj [])
          (Json.str "401 - \x7b\x7d") :=
  ⟨rfl, rfl⟩

/-- C5 (amended): `fetch` awaits the Refresh Coordinator exactly when
`skipRefresh` is falsy AND `recordActivity` is true (not merely unless
both flags are set); with `skipRefresh` truthy it never awaits a refresh
regardless of elapsed time; and when the awaited refresh rejects, the
request's own network call is not issued and the refresh error is what
the fetch promise rejects with. -/
theorem c5_refresh_gate (s : RESTState) (options : JsOptions) (ra : Bool)
    (rres : RefreshSettled) (resp : HttpResponse) :
    (RESTStore.fetch s options ra rres resp).2.refreshAwaited
      = (!(optTruthy options "skipRefresh") && ra) ∧
    (optTruthy options "skipRefresh" = true →
      (RESTStore.fetch s options ra rres resp).2.refreshAwaited = false) ∧
    (∀ st body msg, (!(optTruthy options "skipRefresh") && ra) = true →
      rres = RefreshSettled.rejectedErr st body msg →
      (RESTStore.fetch s options ra rres resp).2.networkCalled = false ∧
      (RESTStore.fetch s options ra rres resp).2.outcome
        = FetchOutcome.refreshFailed st body msg) := by
  refine ⟨?_, ?_, ?_⟩
  · unfold RESTStore.fetch
    by_cases hg : (!(optTruthy options "skipRefresh") && ra) = true
    · rw [hg]
      cases rres <;> simp
    · rw [Bool.not_eq_true] at hg
      rw [hg]
      simp
  · intro hskip
    unfold RESTStore.fetch
    simp [hskip]
  · intro st body msg hg hres
    subst hres
    unfold RESTStore.fetch
    rw [hg]
    exact ⟨rfl, rfl⟩

/-- Witness for C5's amended statement: concrete calls showing the gate
on, the gate forced off by `skipRefresh`, and a refresh rejection
propagated without a network call. -/
theorem c5_refresh_gate_witness :
    (RESTStore.fetch (initState (some 0)) [] true
        (RefreshSettled.rejectedErr 500 (Json.obj []) (Json.str "m"))
        resp200ce).2.refreshAwaited = true ∧
    (RESTStore.fetch (initState (some 0)) [("skipRefresh", Json.bool true)]
        true RefreshSettled.resolvedUnit resp200ce).2.refreshAwaited = false ∧
    (RESTStore.fetch (initState (some 0)) [] true
        (RefreshSettled.rejectedErr 500 (Json.obj []) (Json.str "m"))
        resp200ce).2.networkCalled = false ∧
    (RESTStore.fetch (initState (some 0)) [] true
        (RefreshSettled.rejectedErr 500 (Json.obj []) (Json.str "m"))
        resp200ce).2.outcome
      = FetchOutcome.refreshFailed 500 (Json.obj []) (Json.str "m") := by
  refine ⟨(c5_refresh_gate (initState (some 0)) []
      true (RefreshSettled.rejectedErr 500 (Json.obj []) (Json.str "m"))
      resp200ce).1, ?_, ?_, ?_⟩
  · exact (c5_refresh_gate (initState (some 0))
      [("skipRefresh", Json.bool true)] true RefreshSettled.resolvedUnit
      resp200ce).2.1 rfl
  · exact ((c5_refresh_gate (initState (some 0)) [] true
      (RefreshSettled.rejectedErr 500 (Json.obj []) (Json.str "m"))
      resp200ce).2.2 500 (Json.obj []) (Json.str "m") rfl rfl).1
  · exact ((c5_refresh_gate (initState (some 0)) [] true
      (RefreshSettled.rejectedErr 500 (Json.obj []) (Json.str "m"))
      resp200ce).2.2 500 (Json.obj []) (Json.str "m") rfl rfl).2

/-- Counterexample to C5 as stated: with `skipRefresh` absent (so the
claimed "unless skipRefresh is set and recordActivity is true" exception
does not apply) but `recordActivity = false`, the code does NOT await the
Refresh Coordinator: the gate requires `recordActivity` to be true. -/
theorem c5_refresh_gate_counterexample :
    optTruthy [] "skipRefresh" = false ∧
    (RESTStore.fetch (initState (some 0)) [] false
        RefreshSettled.resolvedUnit resp200ce).2.refreshAwaited = false :=
  ⟨rfl, rfl⟩

/-- C6 (amended): for a non-2xx, non-504 response the derived message is
`body.error_description` when that field is present AND truthy (in JS an
empty string is falsy, so mere presence is not enough), else `body.error`
when present and truthy, else the fallback
`` `${status} - ${JSON.stringify(body)}` ``; and the fetch rejection
carries the response status, the parsed body and that message, which is
also written to the observable error field. -/
theorem c6_error_message (status : Nat) (body : Json) (s : RESTState)
    (resp : HttpResponse) :
    (∀ v, body.truthy = true →
      body.getField "error_description" = some v → v.truthy = true →
      responseErrorMsg status body = v) ∧
    (∀ v, body.truthy = true →
      jsTruthyOpt (body.getField "error_description") = false →
      body.getField "error" = some v → v.truthy = true →
      responseErrorMsg status body = v) ∧
    (jsTruthyOpt (body.getField "error_description") = false →
      jsTruthyOpt (body.getField "error") = false →
      responseErrorMsg status body =
        Json.str (toString status ++ " - " ++ Json.stringify body)) ∧
    (resp.json = some body → respOk resp.status = false →
      resp.status ≠ 504 → ∀ skip401,
      (RESTStore.handleFetchResponse s skip401 resp).2
        = FetchOutcome.httpError resp.status body
            (responseErrorMsg resp.status body) ∧
      (RESTStore.handleFetchResponse s skip401 resp).1.error
        = responseErrorMsg resp.status body) := by
  refine ⟨?_, ?_, ?_, ?_⟩
  · intro v hb hed hv
    unfold responseErrorMsg
    simp [hed, jsTruthyOpt, hb, hv]
  · intro v hb hned her hv
    unfold responseErrorMsg
    rw [hned]
    simp [her, jsTruthyOpt, hb, hv]
  · intro hned hner
    unfold responseErrorMsg
    simp [hned, hner]
  · intro hjson hok h504 skip401
    unfold RESTStore.handleFetchResponse
    have h504' : (resp.status == 504) = false := by
      simp [h504]
    simp [hok, h504', hjson]

/-- Witness for C6's amended statement: the three example bodies of the
claim — `{error_description: "X"}` gives `"X"`, `{error: "Y"}` gives
`"Y"`, `{}` with status 500 gives `"500 - {}"` — and a 500 rejection
carrying status, body and message. -/
theorem c6_error_message_witness :
    responseErrorMsg 500 (Json.obj [("error_description", Json.str "X")])
      = Json.str "X" ∧
    responseErrorMsg 500 (Json.obj [("error", Json.str "Y")])
      = Json.str "Y" ∧
    responseErrorMsg 500 (Json.obj [])
      = Json.str "500 - \x7b\x7d" ∧
    (RESTStore.handleFetchResponse (initState (some 0)) false
        ⟨500, "\x7b\x7d", some (Json.obj [])⟩).2
      = FetchOutcome.httpError 500 (Json.obj [])
          (responseErrorMsg 500 (Json.obj [])) := by
  refine ⟨?_, ?_, ?_, ?_⟩
  · exact (c6_error_message 500 (Json.obj [("error_description", Json.str "X")])
      (initState (some 0)) resp200ce).1 (Json.str "X") rfl rfl rfl
  · exact (c6_error_message 500 (Json.obj [("error", Json.str "Y")])
      (initState (some 0)) resp200ce).2.1 (Json.str "Y") rfl rfl rfl rfl
  · exact (c6_error_message 500 (Json.obj [])
      (initState (some 0)) resp200ce).2.2.1 rfl rfl
  · exact ((c6_error_message 500 (Json.obj []) (initState (some 0))
      ⟨500, "\x7b\x7d", some (Json.obj [])⟩).2.2.2 rfl rfl (by decide)
      false).1

/-- Counterexample to C6 as stated: a body whose `error_description`
field is present (but the empty string, which is falsy in JS) next to
`error: "Y"` — the claim says the message equals the present
`error_description`, i.e. `""`, but the code skips the falsy field and
returns `"Y"`. -/
theorem c6_error_message_counterexample :
    bodyEDempty.getField "error_description" = some (Json.str "") ∧
    responseErrorMsg 400 bodyEDempty = Json.str "Y" :=
  ⟨rfl, rfl⟩

/-- C7 (amended): on upload completion with status 200 the call resolves
with the parsed response text (the upload-error field having been
cleared); on any other status the upload-error field is set to the raw
response text and the call rejects with the parsed body — but when the
response text is not valid JSON, `JSON.parse` throws inside the handler
and the promise never settles (there is no raw-body fallback; the
upload-error field is still set to the raw text). -/
theorem c7_upload_completion (s : RESTState) (resp : HttpResponse) :
    (resp.status = 200 → ∀ j, resp.json = some j →
      RESTStore.uploadOnLoad s resp =
        ({ s with status := 200, uploadError := "" },
          UploadOutcome.resolvedJson j)) ∧
    (resp.status ≠ 200 →
      (RESTStore.uploadOnLoad s resp).1.uploadError = resp.text ∧
      (RESTStore.uploadOnLoad s resp).1.status = resp.status ∧
      (∀ j, resp.json = some j →
        (RESTStore.uploadOnLoad s resp).2 = UploadOutcome.rejectedBody j) ∧
      (resp.json = none →
        (RESTStore.uploadOnLoad s resp).2 = UploadOutcome.parseThrow)) := by
  constructor
  · intro h200 j hjson
    unfold RESTStore.uploadOnLoad
    simp [h200, hjson]
  · intro hne
    have hne' : (resp.status == 200) = false := by
      simp [hne]
    cases hj : resp.json with
    | some j =>
      refine ⟨by simp [RESTStore.uploadOnLoad, hne', hj],
        by simp [RESTStore.uploadOnLoad, hne', hj], ?_, ?_⟩
      · intro j' hj'
        injection hj' with hjj
        subst hjj
        simp [RESTStore.uploadOnLoad, hne', hj]
      · intro hnone
        exact absurd hnone (by simp)
    | none =>
      refine ⟨by simp [RESTStore.uploadOnLoad, hne', hj],
        by simp [RESTStore.uploadOnLoad, hne', hj], ?_, ?_⟩
      · intro j' hj'
        exact absurd hj' (by simp)
      · intro hnone
        simp [RESTStore.uploadOnLoad, hne', hj]

/-- Witness for C7's amended statement: a 200 completion with body
`{"id":1}` resolves with it, and a 500 completion with unparsable text
`"oops"` sets the upload error to `"oops"` and never settles. -/
theorem c7_upload_completion_witness :
    RESTStore.uploadOnLoad (initState (some 0))
        ⟨200, "\x7b\"id\":1\x7d", some (Json.obj [("id", Json.num 1)])⟩
      = ({ initState (some 0) with status := 200, uploadError := "" },
          UploadOutcome.resolvedJson (Json.obj [("id", Json.num 1)])) ∧
    (RESTStore.uploadOnLoad (initState (some 0))
        ⟨500, "oops", none⟩).1.uploadError = "oops" ∧
    (RESTStore.uploadOnLoad (initState (some 0))
        ⟨500, "oops", none⟩).2 = UploadOutcome.parseThrow := by
  refine ⟨?_, ?_, ?_⟩
  · exact (c7_upload_completion (initState (some 0))
      ⟨200, "\x7b\"id\":1\x7d", some (Json.obj [("id", Json.num 1)])⟩).1
      rfl (Json.obj [("id", Json.num 1)]) rfl
  · exact ((c7_upload_completion (initState (some 0))
      ⟨500, "oops", none⟩).2 (by decide)).1
  · exact ((c7_upload_completion (initState (some 0))
      ⟨500, "oops", none⟩).2 (by decide)).2.2.2 rfl

/-- Counterexample to C7 as stated: a non-200 completion whose response
text `"oops"` is not valid JSON sets the upload-error field to the raw
text, but the call does not fail with the raw body — `JSON.parse` throws
and no rejection value is ever produced (the promise never settles). -/
theorem c7_upload_completion_counterexample :
    (RESTStore.uploadOnLoad (initState (some 0))
        ⟨500, "oops", none⟩).1.uploadError = "oops" ∧
    (RESTStore.uploadOnLoad (initState (some 0))
        ⟨500, "oops", none⟩).2 = UploadOutcome.parseThrow :=
  ⟨rfl, rfl⟩

/-- C8: when a refresh starts (stale clock, no refresh in flight) and the
refresh transport itself rejects, the refresh promise never settles, the
`.finally` that clears the in-flight handle never runs (the handle stays
`some pid`), and from then on every `refresh()` call — at any time, so
also the freshness gate of every `fetch`/`upload` that awaits it —
returns that same forever-pending promise and changes nothing; a fetch
gated on a never-settling refresh itself never settles. -/
theorem c8_transport_hang (s : RESTState) (now pid : Nat)
    (h : s.refreshPromise = none)
    (hstale : ACCESS_TIMEOUT ≤ now - RESTStore.getLastRefresh s) :
    (RESTStore.refresh s now pid).1 = RefreshSyncResult.started pid ∧
    (RESTStore.refreshSettle (RESTStore.refresh s now pid).2
        NetOutcome.transportError).2 = RefreshSettled.neverSettles ∧
    (RESTStore.refreshSettle (RESTStore.refresh s now pid).2
        NetOutcome.transportError).1.refreshPromise = some pid ∧
    (∀ now' pid',
      RESTStore.refresh
          (RESTStore.refreshSettle (RESTStore.refresh s now pid).2
            NetOutcome.transportError).1 now' pid' =
        (RefreshSyncResult.existing pid,
          (RESTStore.refreshSettle (RESTStore.refresh s now pid).2
            NetOutcome.transportError).1)) ∧
    (∀ options ra resp, (!(optTruthy options "skipRefresh") && ra) = true →
      (RESTStore.fetch
          (RESTStore.refreshSettle (RESTStore.refresh s now pid).2
            NetOutcome.transportError).1 options ra
          RefreshSettled.neverSettles resp).2.outcome
        = FetchOutcome.neverSettles) := by
  have hc : ¬ RESTStore.getLastRefresh s + ACCESS_TIMEOUT > now := by
    unfold ACCESS_TIMEOUT at *
    omega
  have hr : RESTStore.refresh s now pid =
      (RefreshSyncResult.started pid,
        { RESTStore.updateLastRefresh s now with refreshPromise := some pid }) := by
    simp [RESTStore.refresh, h, hc]
  have hset : RESTStore.refreshSettle (RESTStore.refresh s now pid).2
      NetOutcome.transportError =
      ((RESTStore.refresh s now pid).2, RefreshSettled.neverSettles) := rfl
  refine ⟨by rw [hr], by rw [hset], ?_, ?_, ?_⟩
  · rw [hset, hr]
  · intro now' pid'
    rw [hset, hr]
    rfl
  · intro options ra resp hg
    unfold RESTStore.fetch
    rw [hg]
    rfl

/-- Witness for C8 at a concrete stale state: the transport failure
leaves promise 5 in flight forever and later calls return it. -/
theorem c8_transport_hang_witness :
    (RESTStore.refresh (initState (some 0)) 100000 5).1
      = RefreshSyncResult.started 5 ∧
    (RESTStore.refreshSettle (RESTStore.refresh (initState (some 0)) 100000 5).2
        NetOutcome.transportError).1.refreshPromise = some 5 ∧
    (RESTStore.refresh
        (RESTStore.refreshSettle
          (RESTStore.refresh (initState (some 0)) 100000 5).2
          NetOutcome.transportError).1 900000 6).1
      = RefreshSyncResult.existing 5 := by
  refine ⟨(c8_transport_hang (initState (some 0)) 100000 5 rfl (by decide)).1,
    (c8_transport_hang (initState (some 0)) 100000 5 rfl (by decide)).2.2.1, ?_⟩
  have hx := (c8_transport_hang (initState (some 0)) 100000 5 rfl
    (by decide)).2.2.2.1 900000 6
  rw [hx]

/-- C9: with the persisted clock key absent, `getLastRefresh()` returns
`Number(null) = 0`; hence (no refresh in flight, real epoch time being
far past both windows) `refresh()` finds the token stale and starts a
network call, and the next session-watch tick sets the expiry flag. -/
theorem c9_absent_clock (s : RESTState) (now pid : Nat)
    (habs : s.lastRefreshed = none) (hfree : s.refreshPromise = none) :
    RESTStore.getLastRefresh s = 0 ∧
    (ACCESS_TIMEOUT ≤ now →
      (RESTStore.refresh s now pid).1 = RefreshSyncResult.started pid) ∧
    (REFRESH_TIMEOUT < now →
      (RESTStore.sessionWatchTick s now).expired = true) := by
  have h0 : RESTStore.getLastRefresh s = 0 := by
    simp [RESTStore.getLastRefresh, habs]
  refine ⟨h0, ?_, ?_⟩
  · intro hnow
    have hc : ¬ RESTStore.getLastRefresh s + ACCESS_TIMEOUT > now := by
      omega
    simp [RESTStore.refresh, hfree, hc]
  · intro hnow
    have hc : RESTStore.getLastRefresh s + REFRESH_TIMEOUT < now := by
      omega
    simp [RESTStore.sessionWatchTick, hc]

/-- Witness for C9 at an absent clock and a realistic epoch time
(1e12 ms, i.e. September 2001). -/
theorem c9_absent_clock_witness :
    RESTStore.getLastRefresh (initState none) = 0 ∧
    (RESTStore.refresh (initState none) 1000000000000 1).1
      = RefreshSyncResult.started 1 ∧
    (RESTStore.sessionWatchTick (initState none) 1000000000000).expired
      = true :=
  ⟨(c9_absent_clock (initState none) 1000000000000 1 rfl rfl).1,
    (c9_absent_clock (initState none) 1000000000000 1 rfl rfl).2.1
      (by decide),
    (c9_absent_clock (initState none) 1000000000000 1 rfl rfl).2.2
      (by decide)⟩

/-- C10: the control flags are not fully stripped before the network
operation. `fetch` removes exactly `query` and `skip401` from the options
it hands to the transport, but a `skipRefresh` entry survives into the
final `buildOptions` result; `upload` removes only `method`, `query` and
`headers`, so `skipRefresh` and `skip401` entries are JSON-stringified
and appended as form fields of the multipart body. -/
theorem c10_flag_leak (options : JsOptions) (v : Json) (file : String) :
    (("skipRefresh", v) ∈ options →
      ("skipRefresh", v) ∈ buildOptions (RESTStore.fetchRequestOptions options)) ∧
    (∀ w : Json, ("query", w) ∉ RESTStore.fetchRequestOptions options ∧
      ("skip401", w) ∉ RESTStore.fetchRequestOptions options) ∧
    (("skipRefresh", v) ∈ options →
      ("skipRefresh", Json.stringify v) ∈
        RESTStore.uploadFormFields options file) ∧
    (("skip401", v) ∈ options →
      ("skip401", Json.stringify v) ∈
        RESTStore.uploadFormFields options file) := by
  refine ⟨?_, ?_, ?_, ?_⟩
  · intro hmem
    have hfr : ("skipRefresh", v) ∈ RESTStore.fetchRequestOptions options :=
      List.mem_filter.mpr ⟨hmem, by rfl⟩
    unfold buildOptions
    cases hl : List.lookup "headers" (RESTStore.fetchRequestOptions options) with
    | none =>
      simp only [hl]
      exact mem_spreadMerge_right hfr
    | some jh =>
      cases jh with
      | obj hfields =>
        simp only [hl]
        refine mem_spreadMerge_right (mem_spreadMerge_left ?_ (by rfl))
        exact List.mem_filter.mpr ⟨hfr, by rfl⟩
      | null => simp only [hl]; exact mem_spreadMerge_right hfr
      | bool b => simp only [hl]; exact mem_spreadMerge_right hfr
      | num n => simp only [hl]; exact mem_spreadMerge_right hfr
      | str s => simp only [hl]; exact mem_spreadMerge_right hfr
      | arr es => simp only [hl]; exact mem_spreadMerge_right hfr
  · intro w
    constructor
    · intro hmem
      have := (List.mem_filter.mp hmem).2
      simp at this
    · intro hmem
      have := (List.mem_filter.mp hmem).2
      simp at this
  · intro hmem
    have hup : ("skipRefresh", v) ∈ RESTStore.uploadData options :=
      List.mem_filter.mpr ⟨hmem, by rfl⟩
    exact List.mem_append_left _
      (List.mem_map_of_mem (fun kv => (kv.1, Json.stringify kv.2)) hup)
  · intro hmem
    have hup : ("skip401", v) ∈ RESTStore.uploadData options :=
      List.mem_filter.mpr ⟨hmem, by rfl⟩
    exact List.mem_append_left _
      (List.mem_map_of_mem (fun kv => (kv.1, Json.stringify kv.2)) hup)

/-- Witness for C10 at concrete upload options carrying both flags. -/
theorem c10_flag_leak_witness :
    ("skipRefresh", Json.bool true) ∈
      buildOptions (RESTStore.fetchRequestOptions
        [("skipRefresh", Json.bool true), ("skip401", Json.bool true)]) ∧
    ("skip401", Json.bool true) ∉
      RESTStore.fetchRequestOptions
        [("skipRefresh", Json.bool true), ("skip401", Json.bool true)] ∧
    ("skipRefresh", "true") ∈
      RESTStore.uploadFormFields
        [("skipRefresh", Json.bool true), ("skip401", Json.bool true)] "F" ∧
    ("skip401", "true") ∈
      RESTStore.uploadFormFields
        [("skipRefresh", Json.bool true), ("skip401", Json.bool true)] "F" := by
  have hc := c10_flag_leak
    [("skipRefresh", Json.bool true), ("skip401", Json.bool true)]
    (Json.bool true) "F"
  have hm : ("skipRefresh", Json.bool true) ∈
      [("skipRefresh", Json.bool true), ("skip401", Json.bool true)] :=
    List.Mem.head _
  have hm' : ("skip401", Json.bool true) ∈
      [("skipRefresh", Json.bool true), ("skip401", Json.bool true)] :=
    List.Mem.tail _ (List.Mem.head _)
  exact ⟨hc.1 hm, (hc.2.1 (Json.bool true)).2, hc.2.2.1 hm, hc.2.2.2 hm'⟩

end StateMgmt
